import Mathlib

/-!
Verification development for the native engine, memory-view and
reference-type subsystems of the wasmer repository sample
(src/lib/engine-native/src/engine.rs, src/lib/runtime-core/src/memory/view.rs,
src/lib/api/tests/reference_types.rs).

Machine integers are modelled as `Nat`; byte sequences as `List Nat`;
fallible Rust functions as `Except`/`Option`; the `#[cfg(feature = "compiler")]`
conditional compilation gives two Lean functions where the source has two
variants of one Rust method.
-/

namespace WasmerSpec

/-- WebAssembly value types (external `wasmer_types::Type`). -/
inductive WType
  | i32
  | i64
  | f32
  | f64
  | v128
  | externref
  | funcref
deriving DecidableEq, Repr

/-- A function type: ordered parameter types and ordered result types
(external `wasmer_types::FunctionType`). -/
structure FunctionType where
  params : List WType
  results : List WType
deriving DecidableEq, Repr

/-- The variants of `wasmer_compiler::CompileError` relevant to the engine
(`Codegen` and `Validate`). -/
inductive CompileError
  | Codegen : String → CompileError
  | Validate : String → CompileError
deriving DecidableEq, Repr

/-- Whether a `CompileError` is of the `Validate` kind. -/
def CompileError.isValidateKind : CompileError → Bool
  | .Validate _ => true
  | .Codegen _ => false

/-- The WebAssembly feature set (external `wasmer_types::Features`),
kept abstract: none of its content is consulted by the embedded code. -/
def Features := Unit

/-- `Features::default()`. -/
def Features.default : Features := ()

/-- The external `Compiler` collaborator: only its `validate_module`
capability is consulted by the code under src/. -/
structure Compiler where
  validate_module : Features → List Nat → Except CompileError Unit

/-- An opaque handle for a compiled `Artifact` (external `NativeArtifact`). -/
def Artifact := Nat

/-- An opaque handle for a loaded native library (external `libloading::Library`). -/
def Library := Nat

/-- Modelled from the spec: the `SignatureRegistry` of `wasmer_vm` (not under
src/) is a bidirectional mapping from function type signature to a small
integer index, unique per Engine instance; registering a structurally
identical signature twice returns the same index. The registry state is the
list of registered types; an index is a position in that list. -/
structure SignatureRegistry where
  types : List FunctionType
deriving DecidableEq, Repr

/-- `SignatureRegistry::new()`: the empty registry. -/
def SignatureRegistry.new : SignatureRegistry := ⟨[]⟩

/-- Position of the first structurally equal entry in the registered list,
if any. -/
def regIdx : List FunctionType → FunctionType → Option Nat
  | [], _ => none
  | t :: ts, ft => if t = ft then some 0 else (regIdx ts ft).map (· + 1)

/-- Modelled from the spec: `SignatureRegistry::register` inserts or looks
up: an already-registered structurally equal type keeps its index and the
registry is unchanged; a new type is appended and receives the next index.
Total by construction. -/
def SignatureRegistry.register (r : SignatureRegistry) (ft : FunctionType) :
    Nat × SignatureRegistry :=
  match regIdx r.types ft with
  | some i => (i, r)
  | none => (r.types.length, ⟨r.types ++ [ft]⟩)

/-- Modelled from the spec: `SignatureRegistry::lookup` returns the
registered type at the index, or nothing when the index is unknown to this
registry. -/
def SignatureRegistry.lookup (r : SignatureRegistry) (i : Nat) : Option FunctionType :=
  r.types.get? i

/-- The `Linker` variant set (engine.rs lines 178-185). -/
inductive Linker
  | None
  | Clang11
  | Clang10
  | Clang
  | Gcc
deriving DecidableEq, Repr

/-- `Linker::executable` (engine.rs lines 211-219). -/
def Linker.executable : Linker → String
  | .None => ""
  | .Clang11 => "clang-11"
  | .Clang10 => "clang-10"
  | .Clang => "clang"
  | .Gcc => "gcc"

/-- The ordered candidate list probed by `Linker::find_linker`
(engine.rs lines 190-197): cross-compiling probes clang-11, clang-10 and
clang in that order; otherwise only gcc is probed. -/
def Linker.candidates (is_cross_compiling : Bool) : List Linker :=
  if is_cross_compiling then [.Clang11, .Clang10, .Clang] else [.Gcc]

/-- `Linker::find_linker` (engine.rs lines 188-209): the host search-path
probe `which::which` is modelled by the predicate `installed` on executable
names; the first present candidate wins; `none` models the source's fatal
panic when no candidate is present. -/
def Linker.find_linker (is_cross_compiling : Bool) (installed : String → Bool) :
    Option Linker :=
  (Linker.candidates is_cross_compiling).find? (fun l => installed l.executable)

/-- The inner contents of `NativeEngine` (engine.rs lines 222-252). The
`#[cfg(feature = "compiler")]` fields `compiler` and `features` are kept;
in the build without the feature they are simply absent and unread. -/
structure NativeEngineInner where
  compiler : Option Compiler
  features : Features
  signatures : SignatureRegistry
  prefixer : Option (List Nat → String)
  is_cross_compiling : Bool
  linker : Linker
  libraries : List Library

/-- Message of the error returned by `NativeEngineInner::compiler` when no
compiler is attached (engine.rs line 259). -/
def headlessExecuteOnlyMsg : String :=
  "The `NativeEngine` is operating in headless mode, so it can only execute already compiled Modules."

/-- Message of the error returned by the no-compiler-feature variant of
`NativeEngine::compile` (engine.rs lines 147-150). -/
def headlessCannotCompileMsg : String :=
  "The `NativeEngine` is operating in headless mode, so it cannot compile a module."

/-- Message of the error returned by the no-compiler-feature variant of
`NativeEngineInner::validate` (engine.rs lines 290-292). -/
def noCompilerSupportValidateMsg : String :=
  "The `NativeEngine` is not compiled with compiler support, which is required for validating"

/-- `NativeEngineInner::compiler` (engine.rs lines 256-265): the attached
compiler, or a `Codegen` error naming headless mode when none is attached. -/
def NativeEngineInner.compilerOrErr (s : NativeEngineInner) :
    Except CompileError Compiler :=
  match s.compiler with
  | none => Except.error (CompileError.Codegen headlessExecuteOnlyMsg)
  | some c => Except.ok c

/-- `NativeEngineInner::validate`, `#[cfg(feature = "compiler")]` variant
(engine.rs lines 282-285): obtains the compiler (failing as `compiler()`
fails) and delegates to `validate_module` with the engine's features. -/
def NativeEngineInner.validate (s : NativeEngineInner) (data : List Nat) :
    Except CompileError Unit := do
  let c ← s.compilerOrErr
  c.validate_module s.features data

/-- `NativeEngineInner::validate`, `#[cfg(not(feature = "compiler"))]`
variant (engine.rs lines 288-293): always a `Validate` error. -/
def NativeEngineInner.validateWithoutCompilerSupport (_s : NativeEngineInner)
    (_data : List Nat) : Except CompileError Unit :=
  Except.error (CompileError.Validate noCompilerSupportValidateMsg)

/-- `NativeEngine::new` (engine.rs lines 30-47). The source derives
`is_cross_compiling` from `*target.triple() != Triple::host()`; here the
flag is taken directly. `find_linker` runs at construction; its fatal
no-linker panic is modelled by returning `none` from construction. -/
def NativeEngine.new (compiler : Compiler) (features : Features)
    (is_cross_compiling : Bool) (installed : String → Bool) :
    Option NativeEngineInner :=
  match Linker.find_linker is_cross_compiling installed with
  | none => none
  | some linker =>
    some
      { compiler := some compiler
        features := features
        signatures := SignatureRegistry.new
        prefixer := none
        is_cross_compiling := is_cross_compiling
        linker := linker
        libraries := [] }

/-- `NativeEngine::headless` (engine.rs lines 62-78): no compiler, default
features, fresh registry, no prefixer, not cross-compiling, `Linker::None`,
no libraries. It never consults the host search path; the ambient
`installed` predicate is taken only to state that fact and is unused. -/
def NativeEngine.headless (_installed : String → Bool) : NativeEngineInner :=
  { compiler := none
    features := Features.default
    signatures := SignatureRegistry.new
    prefixer := none
    is_cross_compiling := false
    linker := Linker.None
    libraries := [] }

/-- `NativeEngine::register_signature` (engine.rs lines 114-117): delegates
to the signature registry of the locked inner state; the updated registry is
the new inner state. -/
def NativeEngine.register_signature (s : NativeEngineInner)
    (func_type : FunctionType) : Nat × NativeEngineInner :=
  let p := s.signatures.register func_type
  (p.1, { s with signatures := p.2 })

/-- `NativeEngine::lookup_signature` (engine.rs lines 120-123). -/
def NativeEngine.lookup_signature (s : NativeEngineInner) (sig : Nat) :
    Option FunctionType :=
  s.signatures.lookup sig

/-- Modelled from the spec: `NativeArtifact::new`
(src/lib/engine-native/src/artifact.rs, not under src/) runs the compile
pipeline of spec section 4.3. Its first step obtains the engine's compiler
through `NativeEngineInner::compiler` (embedded above as `compilerOrErr`),
so a headless engine short-circuits with that `Codegen` error before any
compilation work; the remainder of the pipeline (validation, code
generation, linking, loading) is external to src/ and abstracted as the
continuation `rest`. -/
def NativeArtifact.new (s : NativeEngineInner) (binary : List Nat)
    (rest : Compiler → List Nat → Except CompileError Artifact) :
    Except CompileError Artifact := do
  let c ← s.compilerOrErr
  rest c binary

/-- `NativeEngine::compile`, `#[cfg(feature = "compiler")]` variant
(engine.rs lines 131-138): wraps `NativeArtifact::new`. -/
def NativeEngine.compile (s : NativeEngineInner) (binary : List Nat)
    (rest : Compiler → List Nat → Except CompileError Artifact) :
    Except CompileError Artifact :=
  NativeArtifact.new s binary rest

/-- `NativeEngine::compile`, `#[cfg(not(feature = "compiler"))]` variant
(engine.rs lines 141-151): always a `Codegen` error naming headless mode. -/
def NativeEngine.compileWithoutCompilerSupport (_s : NativeEngineInner)
    (_binary : List Nat) : Except CompileError Artifact :=
  Except.error (CompileError.Codegen headlessCannotCompileMsg)

/-- `NativeEngineInner::add_library` (engine.rs lines 308-310):
`Vec::push` appends at the end. -/
def NativeEngineInner.add_library (s : NativeEngineInner) (library : Library) :
    NativeEngineInner :=
  { s with libraries := s.libraries ++ [library] }

/-- The element types for which view.rs (lines 7-16) implements `Atomic`. -/
inductive ScalarTy
  | i8
  | i16
  | i32
  | i64
  | u8
  | u16
  | u32
  | u64
  | f32
  | f64
deriving DecidableEq, Repr

/-- The atomic integer types of `std::sync::atomic` used by view.rs. -/
inductive AtomicTy
  | AtomicI8
  | AtomicI16
  | AtomicI32
  | AtomicI64
  | AtomicU8
  | AtomicU16
  | AtomicU32
  | AtomicU64
deriving DecidableEq, Repr

/-- The `Atomic` trait's associated `type Output`, one clause per impl in
view.rs lines 7-16. -/
def atomicOutput : ScalarTy → AtomicTy
  | .i8 => .AtomicI8
  | .i16 => .AtomicI16
  | .i32 => .AtomicI32
  | .i64 => .AtomicI64
  | .u8 => .AtomicU8
  | .u16 => .AtomicU16
  | .u32 => .AtomicU32
  | .u64 => .AtomicU64
  | .f32 => .AtomicU32
  | .f64 => .AtomicU64

/-- Bit width of a scalar element type. -/
def ScalarTy.bitWidth : ScalarTy → Nat
  | .i8 => 8
  | .i16 => 16
  | .i32 => 32
  | .i64 => 64
  | .u8 => 8
  | .u16 => 16
  | .u32 => 32
  | .u64 => 64
  | .f32 => 32
  | .f64 => 64

/-- Bit width of an atomic element type. -/
def AtomicTy.bitWidth : AtomicTy → Nat
  | .AtomicI8 => 8
  | .AtomicI16 => 16
  | .AtomicI32 => 32
  | .AtomicI64 => 64
  | .AtomicU8 => 8
  | .AtomicU16 => 16
  | .AtomicU32 => 32
  | .AtomicU64 => 64

/-- Whether a scalar type is a signed integer. -/
def ScalarTy.isSignedInt : ScalarTy → Bool
  | .i8 => true
  | .i16 => true
  | .i32 => true
  | .i64 => true
  | _ => false

/-- Whether a scalar type is an unsigned integer. -/
def ScalarTy.isUnsignedInt : ScalarTy → Bool
  | .u8 => true
  | .u16 => true
  | .u32 => true
  | .u64 => true
  | _ => false

/-- Whether an atomic type is over a signed integer. -/
def AtomicTy.isSignedInt : AtomicTy → Bool
  | .AtomicI8 => true
  | .AtomicI16 => true
  | .AtomicI32 => true
  | .AtomicI64 => true
  | _ => false

/-- Follows the words of the spec (refinement side, to be compared with the
source-derived `atomicOutput`): each integer type maps to the atomic integer
of the same width and signedness; f32 maps to AtomicU32 and f64 to
AtomicU64. -/
def atomicCounterpartSpec : ScalarTy → AtomicTy
  | .i8 => .AtomicI8
  | .i16 => .AtomicI16
  | .i32 => .AtomicI32
  | .i64 => .AtomicI64
  | .u8 => .AtomicU8
  | .u16 => .AtomicU16
  | .u32 => .AtomicU32
  | .u64 => .AtomicU64
  | .f32 => .AtomicU32
  | .f64 => .AtomicU64

/-- A non-atomic `MemoryView` (view.rs lines 24-28): a raw pointer address,
an element count and the element type. The type-level `T` parameter of the
source is carried as the data field `elem`. -/
structure MemoryView where
  ptr : Nat
  length : Nat
  elem : ScalarTy
deriving DecidableEq, Repr

/-- An atomic `MemoryView` (the `Atomically` instantiation of the source's
`MemoryView<T, A>`). -/
structure AtomicMemoryView where
  ptr : Nat
  length : Nat
  elem : AtomicTy
deriving DecidableEq, Repr

/-- `MemoryView::new` (view.rs lines 34-40): stores the pointer and the
length; the u32 length is widened to usize, both modelled as `Nat`. -/
def MemoryView.new (ptr : Nat) (length : Nat) (elem : ScalarTy) : MemoryView :=
  { ptr := ptr, length := length, elem := elem }

/-- `MemoryView::atomically` (view.rs lines 43-51): the pointer is cast to
the atomic output type and the length is kept; nothing else changes. -/
def MemoryView.atomically (v : MemoryView) : AtomicMemoryView :=
  { ptr := v.ptr, length := v.length, elem := atomicOutput v.elem }

/-- Modelled from the spec: an `ExternRef` payload (lib/api, not under src/)
carries a runtime type identifier alongside the wrapped host value; both are
opaque here, the payload number standing for the identity of the wrapped
value. -/
structure HostValue where
  typeId : Nat
  payload : Nat
deriving DecidableEq, Repr

/-- An `ExternRef`: null or a wrapped host value. -/
abbrev ExternRef := Option HostValue

/-- The null `ExternRef`. -/
def ExternRef.nullRef : ExternRef := none

/-- `ExternRef::is_null`. -/
def ExternRef.is_null : ExternRef → Bool
  | none => true
  | some _ => false

/-- Modelled from the spec: `ExternRef::downcast` compares the requested
type identifier with the stored dynamic one and yields the original wrapped
value on a match, a no-match result (`none`, never a crash) otherwise. -/
def ExternRef.downcast (t : Nat) : ExternRef → Option Nat
  | none => none
  | some hv => if hv.typeId = t then some hv.payload else none

/-- An opaque callable function handle. -/
def Func := Nat

/-- A `FuncRef`: null or a function handle. -/
abbrev FuncRef := Option Func

/-- `FuncRef::is_none` (the nullity test used by reference_types.rs line 35). -/
def FuncRef.is_none : FuncRef → Bool
  | none => true
  | some _ => false

/-- The host import `func_ref_identity` (reference_types.rs lines 24-26):
returns its single argument unchanged. -/
def func_ref_identity (v : FuncRef) : FuncRef := v

/-- The guest export `run` of the funcref test module (wat, reference_types.rs
lines 15-16): `(call 0 (ref.null func))`. Modelled from the spec: the wasm
VM executing the one-instruction body is external to src/; the body is the
identity import applied to the null funcref. -/
def runFuncRefNull : FuncRef := func_ref_identity (none : FuncRef)

/-- The host import `extern_ref_identity` (reference_types.rs lines 77-79):
returns its single argument unchanged. -/
def extern_ref_identity (v : ExternRef) : ExternRef := v

/-- The guest export `run` of the externref test module (wat,
reference_types.rs lines 65-66): `(call $extern_ref_identity (ref.null
extern))`. Modelled from the spec: the wasm VM executing the body is
external to src/; the body is the identity import applied to the null
externref. -/
def runExternRefNull : ExternRef := extern_ref_identity (none : ExternRef)

/-- The operations on the engine's inner state exposed by engine.rs: lookup
and validation read the state; `register_signature` updates the registry;
`set_deterministic_prefixer` replaces the prefixer; `add_library` (reached
from compile and deserialize) pushes onto the library list. -/
inductive EngineOp
  | registerSig (func_type : FunctionType)
  | lookupSig (sig : Nat)
  | validateBytes (data : List Nat)
  | setDeterministicPrefixer (p : List Nat → String)
  | addLibrary (library : Library)

/-- The state effect of one engine operation. -/
def EngineOp.apply : EngineOp → NativeEngineInner → NativeEngineInner
  | .registerSig ft, s => (NativeEngine.register_signature s ft).2
  | .lookupSig _, s => s
  | .validateBytes _, s => s
  | .setDeterministicPrefixer p, s => { s with prefixer := some p }
  | .addLibrary l, s => s.add_library l

/-- The state after a sequence of engine operations. -/
def applyAll : List EngineOp → NativeEngineInner → NativeEngineInner
  | [], s => s
  | op :: ops, s => applyAll ops (op.apply s)

/-- Exact character-list prefix test, used for substring checks on error
messages. -/
def charsPrefix : List Char → List Char → Bool
  | [], _ => true
  | _ :: _, [] => false
  | a :: as, b :: bs => a = b && charsPrefix as bs

/-- Whether the pattern occurs as a contiguous segment of the text. -/
def charsSeg (pat : List Char) : List Char → Bool
  | [] => charsPrefix pat []
  | c :: cs => charsPrefix pat (c :: cs) || charsSeg pat cs

/-- Whether a message mentions the word "headless". -/
def mentionsHeadless (s : String) : Bool :=
  charsSeg "headless".data s.data

/-- A concrete compiler whose validation always succeeds, used to
instantiate universally quantified statements. -/
def trivialCompiler : Compiler :=
  ⟨fun _ _ => Except.ok ()⟩

/-- The sequence of indices returned, and the state reached, when a list of
function types is registered one after the other on the same engine. -/
def registerAllSigs : NativeEngineInner → List FunctionType → List Nat × NativeEngineInner
  | s, [] => ([], s)
  | s, ft :: fts =>
    let p := NativeEngine.register_signature s ft
    let q := registerAllSigs p.2 fts
    (p.1 :: q.1, q.2)

lemma regIdx_lt {ts : List FunctionType} {ft : FunctionType} {i : Nat}
    (h : regIdx ts ft = some i) : i < ts.length := by
  induction ts generalizing i with
  | nil => simp [regIdx] at h
  | cons t ts ih =>
    by_cases ht : t = ft
    · simp [regIdx, ht] at h
      simp only [List.length_cons]
      omega
    · simp only [regIdx, if_neg ht] at h
      cases hr : regIdx ts ft with
      | none => rw [hr] at h; simp at h
      | some j =>
        rw [hr] at h
        simp only [Option.map_some', Option.some.injEq] at h
        have hj := ih hr
        simp only [List.length_cons]
        omega

lemma regIdx_get {ts : List FunctionType} {ft : FunctionType} {i : Nat}
    (h : regIdx ts ft = some i) : ts.get? i = some ft := by
  induction ts generalizing i with
  | nil => simp [regIdx] at h
  | cons t ts ih =>
    by_cases ht : t = ft
    · simp [regIdx, ht] at h
      subst h
      simp [ht]
    · simp only [regIdx, if_neg ht] at h
      cases hr : regIdx ts ft with
      | none => rw [hr] at h; simp at h
      | some j =>
        rw [hr] at h
        simp only [Option.map_some', Option.some.injEq] at h
        subst h
        exact ih hr

lemma regIdx_none_append {ts : List FunctionType} {ft : FunctionType}
    (h : regIdx ts ft = none) : regIdx (ts ++ [ft]) ft = some ts.length := by
  induction ts with
  | nil => simp [regIdx]
  | cons t ts ih =>
    by_cases ht : t = ft
    · simp [regIdx, ht] at h
    · rw [List.cons_append]
      simp only [regIdx, if_neg ht] at h ⊢
      cases hr : regIdx ts ft with
      | none =>
        rw [ih hr]
        simp [List.length_cons]
      | some j => rw [hr] at h; simp at h

lemma get_append_singleton (ts : List FunctionType) (ft : FunctionType) :
    (ts ++ [ft]).get? ts.length = some ft := by
  induction ts with
  | nil => rfl
  | cons t ts ih => exact ih

/-- Case analysis of `SignatureRegistry.register`: either the type was
present and the registry is unchanged, or it was absent and is appended with
the next index returned. -/
lemma register_cases (r : SignatureRegistry) (ft : FunctionType) :
    (∃ i, regIdx r.types ft = some i ∧ r.register ft = (i, r)) ∨
      (regIdx r.types ft = none ∧
        r.register ft = (r.types.length, ⟨r.types ++ [ft]⟩)) := by
  unfold SignatureRegistry.register
  cases h : regIdx r.types ft with
  | none => exact Or.inr ⟨rfl, rfl⟩
  | some i => exact Or.inl ⟨i, rfl, rfl⟩

lemma register_register_fst (r : SignatureRegistry) (ft : FunctionType) :
    ((r.register ft).2.register ft).1 = (r.register ft).1 := by
  rcases register_cases r ft with ⟨i, hi, hreg⟩ | ⟨hnone, hreg⟩
  · rw [hreg]
    simp only [SignatureRegistry.register, hi]
  · rw [hreg]
    simp only [SignatureRegistry.register, regIdx_none_append hnone]

lemma register_lookup (r : SignatureRegistry) (ft : FunctionType) :
    (r.register ft).2.lookup (r.register ft).1 = some ft := by
  rcases register_cases r ft with ⟨i, hi, hreg⟩ | ⟨hnone, hreg⟩
  · rw [hreg]
    exact regIdx_get hi
  · rw [hreg]
    exact get_append_singleton r.types ft

lemma register_length_le (r : SignatureRegistry) (ft : FunctionType) :
    r.types.length ≤ (r.register ft).2.types.length := by
  rcases register_cases r ft with ⟨i, _, hreg⟩ | ⟨_, hreg⟩
  · rw [hreg]
  · rw [hreg]
    simp

lemma registerAllSigs_length_le :
    ∀ (fts : List FunctionType) (s : NativeEngineInner),
      s.signatures.types.length ≤
        (registerAllSigs s fts).2.signatures.types.length := by
  intro fts
  induction fts with
  | nil => intro s; simp [registerAllSigs]
  | cons ft fts ih =>
    intro s
    have h1 : s.signatures.types.length ≤
        (NativeEngine.register_signature s ft).2.signatures.types.length :=
      register_length_le s.signatures ft
    exact le_trans h1 (ih (NativeEngine.register_signature s ft).2)

/-- Every index at or past the starting length is reached by the run exactly
when it is one of the returned indices. -/
lemma registerAllSigs_mem_indices :
    ∀ (fts : List FunctionType) (s : NativeEngineInner) (j : Nat),
      s.signatures.types.length ≤ j →
      (j < (registerAllSigs s fts).2.signatures.types.length ↔
        j ∈ (registerAllSigs s fts).1) := by
  intro fts
  induction fts with
  | nil =>
    intro s j hj
    simp only [registerAllSigs, List.not_mem_nil, iff_false]
    omega
  | cons ft fts ih =>
    intro s j hj
    simp only [registerAllSigs, List.mem_cons]
    rcases register_cases s.signatures ft with ⟨i, hi, hreg⟩ | ⟨hnone, hreg⟩
    · have hlt : i < s.signatures.types.length := regIdx_lt hi
      have hs2 : (NativeEngine.register_signature s ft).2 = s := by
        simp [NativeEngine.register_signature, hreg]
      have hfst : (NativeEngine.register_signature s ft).1 = i := by
        simp [NativeEngine.register_signature, hreg]
      rw [hs2, hfst]
      have hne : j ≠ i := by omega
      rw [ih s j hj]
      simp [hne]
    · have hs2 : (NativeEngine.register_signature s ft).2.signatures.types =
          s.signatures.types ++ [ft] := by
        simp [NativeEngine.register_signature, hreg]
      have hfst : (NativeEngine.register_signature s ft).1 =
          s.signatures.types.length := by
        simp [NativeEngine.register_signature, hreg]
      rw [hfst]
      by_cases hji : j = s.signatures.types.length
      · have hgrow : (NativeEngine.register_signature s ft).2.signatures.types.length =
            s.signatures.types.length + 1 := by
          rw [hs2]; simp
        have hmono := registerAllSigs_length_le fts (NativeEngine.register_signature s ft).2
        constructor
        · intro _
          exact Or.inl hji
        · intro _
          omega
      · have hj2 : (NativeEngine.register_signature s ft).2.signatures.types.length ≤ j := by
          rw [hs2]; simp; omega
        rw [ih (NativeEngine.register_signature s ft).2 j hj2]
        simp [hji]

lemma lookup_none_of_ge (r : SignatureRegistry) (i : Nat)
    (h : r.types.length ≤ i) : r.lookup i = none := by
  unfold SignatureRegistry.lookup
  exact List.get?_eq_none.2 h

/-- Claim C1 counterexample: on the headless engine of the
`#[cfg(feature = "compiler")]` build, `validate` on the empty byte sequence
returns a `Codegen` error, not a `Validate` error, refuting the claim that
a headless engine's validate returns a Validate error. -/
theorem c1_headless_validate_counterexample :
    NativeEngineInner.validate (NativeEngine.headless (fun _ => false)) [] =
      Except.error (CompileError.Codegen headlessExecuteOnlyMsg) ∧
    CompileError.isValidateKind (CompileError.Codegen headlessExecuteOnlyMsg) = false :=
  ⟨rfl, rfl⟩

/-- Claim C1 (amended): for every byte sequence, calling validate on a
headless Engine returns an error naming the missing compiler: in the build
with the compiler feature, a Codegen error saying the engine operates in
headless mode; in the build without the compiler feature, a Validate error
saying compiler support is missing. -/
theorem c1_headless_validate_error_kinds :
    (∀ (installed : String → Bool) (data : List Nat),
      NativeEngineInner.validate (NativeEngine.headless installed) data =
        Except.error (CompileError.Codegen headlessExecuteOnlyMsg)) ∧
    (∀ (s : NativeEngineInner) (data : List Nat),
      NativeEngineInner.validateWithoutCompilerSupport s data =
        Except.error (CompileError.Validate noCompilerSupportValidateMsg)) :=
  ⟨fun _ _ => rfl, fun _ _ => rfl⟩

/-- Claim C2: for every two structurally equal FunctionTypes,
`register_signature` called on the same Engine returns the same signature
index for both calls; the operation is total by construction (its type
carries no error case). -/
theorem c2_register_signature_same_index (s : NativeEngineInner)
    (ft1 ft2 : FunctionType) (h : ft1 = ft2) :
    (NativeEngine.register_signature s ft1).1 =
      (NativeEngine.register_signature
        (NativeEngine.register_signature s ft1).2 ft2).1 := by
  subst h
  simp only [NativeEngine.register_signature]
  exact (register_register_fst s.signatures ft1).symm

/-- Witness for claim C2 at a concrete engine and function type. -/
theorem c2_register_signature_same_index_witness :
    (NativeEngine.register_signature (NativeEngine.headless (fun _ => false))
        ⟨[WType.i32], [WType.i64]⟩).1 =
      (NativeEngine.register_signature
        (NativeEngine.register_signature (NativeEngine.headless (fun _ => false))
          ⟨[WType.i32], [WType.i64]⟩).2 ⟨[WType.i32], [WType.i64]⟩).1 :=
  c2_register_signature_same_index (NativeEngine.headless (fun _ => false))
    ⟨[WType.i32], [WType.i64]⟩ ⟨[WType.i32], [WType.i64]⟩ rfl

/-- Claim C3: linker selection is a deterministic function of the
cross-compile flag and the set of executables present on the host search
path: cross-compiling probes clang-11, clang-10, clang in that fixed order
and takes the first present; not cross-compiling probes only gcc; and when
no candidate is present, full-Engine construction fails at that moment. -/
theorem c3_linker_selection :
    ∀ installed : String → Bool,
      (Linker.find_linker true installed =
        if installed "clang-11" then some Linker.Clang11
        else if installed "clang-10" then some Linker.Clang10
        else if installed "clang" then some Linker.Clang
        else none) ∧
      (Linker.find_linker false installed =
        if installed "gcc" then some Linker.Gcc else none) ∧
      (∀ (compiler : Compiler) (features : Features) (is_cross : Bool),
        Linker.find_linker is_cross installed = none →
        NativeEngine.new compiler features is_cross installed = none) := by
  intro installed
  refine ⟨?_, ?_, ?_⟩
  · cases h11 : installed "clang-11" <;> cases h10 : installed "clang-10" <;>
      cases hc : installed "clang" <;>
      simp [Linker.find_linker, Linker.candidates, Linker.executable,
        List.find?, h11, h10, hc]
  · cases hg : installed "gcc" <;>
      simp [Linker.find_linker, Linker.candidates, Linker.executable,
        List.find?, hg]
  · intro compiler features is_cross h
    simp [NativeEngine.new, h]

/-- Witness for claim C3: with no executable installed, full-Engine
construction fails. -/
theorem c3_linker_selection_witness :
    NativeEngine.new trivialCompiler Features.default true (fun _ => false) = none :=
  (c3_linker_selection (fun _ => false)).2.2 trivialCompiler Features.default true rfl

/-- Claim C4: for every byte sequence (and any continuation standing for the
rest of the compile pipeline), compile on a headless Engine returns a
Codegen error whose message names the headless limitation, and no Artifact
is produced; the same holds for the build without the compiler feature. -/
theorem c4_headless_compile_codegen :
    (∀ (installed : String → Bool) (binary : List Nat)
        (rest : Compiler → List Nat → Except CompileError Artifact),
      NativeEngine.compile (NativeEngine.headless installed) binary rest =
        Except.error (CompileError.Codegen headlessExecuteOnlyMsg)) ∧
    (∀ (s : NativeEngineInner) (binary : List Nat),
      NativeEngine.compileWithoutCompilerSupport s binary =
        Except.error (CompileError.Codegen headlessCannotCompileMsg)) ∧
    mentionsHeadless headlessExecuteOnlyMsg = true ∧
    mentionsHeadless headlessCannotCompileMsg = true := by
  refine ⟨fun _ _ _ => rfl, fun _ _ => rfl, ?_, ?_⟩ <;> decide

/-- Claim C5: `atomically` is a zero-copy reinterpretation: the atomic view
keeps the original pointer address and element count, and the element type
is mapped exactly as the spec describes (same-width same-signedness atomic
integer for integers, AtomicU32 for f32, AtomicU64 for f64). -/
theorem c5_atomically_zero_copy :
    ∀ v : MemoryView,
      (v.atomically).ptr = v.ptr ∧
      (v.atomically).length = v.length ∧
      (v.atomically).elem = atomicCounterpartSpec v.elem ∧
      (atomicOutput v.elem).bitWidth = v.elem.bitWidth ∧
      (atomicOutput v.elem).isSignedInt = v.elem.isSignedInt := by
  rintro ⟨p, l, e⟩
  refine ⟨rfl, rfl, ?_, ?_, ?_⟩ <;> cases e <;> rfl

/-- Claim C6: `downcast` on an ExternRef yields the originally wrapped value
(same identity) exactly when the requested type equals the wrapped value's
dynamic type; in every other case (type mismatch or null) it returns a
no-match result rather than crashing, the operation being total. -/
theorem c6_downcast_characterisation :
    ∀ (e : ExternRef) (t : Nat),
      ((ExternRef.downcast t e).isSome = true ↔
        ∃ hv : HostValue, e = some hv ∧ hv.typeId = t) ∧
      (∀ hv : HostValue, e = some hv → hv.typeId = t →
        ExternRef.downcast t e = some hv.payload) ∧
      (∀ hv : HostValue, e = some hv → hv.typeId ≠ t →
        ExternRef.downcast t e = none) ∧
      (e = ExternRef.nullRef → ExternRef.downcast t e = none) := by
  intro e t
  refine ⟨?_, ?_, ?_, ?_⟩
  · cases e with
    | none => simp [ExternRef.downcast]
    | some hv =>
      by_cases h : hv.typeId = t
      · simp [ExternRef.downcast, h]
      · simp [ExternRef.downcast, h]
  · rintro hv rfl h
    simp [ExternRef.downcast, h]
  · rintro hv rfl h
    simp [ExternRef.downcast, h]
  · rintro rfl
    rfl

/-- Witness for claim C6 at a concrete wrapped value and matching type. -/
theorem c6_downcast_witness :
    ExternRef.downcast 3 (some ⟨3, 7⟩) = some 7 :=
  (c6_downcast_characterisation (some ⟨3, 7⟩) 3).2.1 ⟨3, 7⟩ rfl rfl

/-- Claim C7: forwarding a null FuncRef through the imported identity
function and back yields a null FuncRef (`is_none` holds), and the same
round trip with a null ExternRef yields a null ExternRef (`is_null`
holds). -/
theorem c7_null_round_trip :
    FuncRef.is_none runFuncRefNull = true ∧
    ExternRef.is_null runExternRefNull = true :=
  ⟨rfl, rfl⟩

/-- Claim C8: `lookup_signature` applied to the index just returned by
`register_signature(t)` on the same Engine returns `some t`; and starting
from a fresh (empty-registry) Engine, any index never produced by that
Engine's `register_signature` calls looks up to `none`. -/
theorem c8_lookup_signature_spec :
    (∀ (s : NativeEngineInner) (ft : FunctionType),
      NativeEngine.lookup_signature (NativeEngine.register_signature s ft).2
        (NativeEngine.register_signature s ft).1 = some ft) ∧
    (∀ (s : NativeEngineInner), s.signatures.types = [] →
      ∀ (fts : List FunctionType) (idx : Nat),
        idx ∉ (registerAllSigs s fts).1 →
        NativeEngine.lookup_signature (registerAllSigs s fts).2 idx = none) := by
  constructor
  · intro s ft
    simp only [NativeEngine.lookup_signature, NativeEngine.register_signature]
    exact register_lookup s.signatures ft
  · intro s hs fts idx hidx
    have hstart : s.signatures.types.length ≤ idx := by
      rw [hs]
      exact Nat.zero_le idx
    have hiff := registerAllSigs_mem_indices fts s idx hstart
    have hge : (registerAllSigs s fts).2.signatures.types.length ≤ idx := by
      by_contra hlt
      push_neg at hlt
      exact hidx (hiff.1 hlt)
    exact lookup_none_of_ge _ idx hge

/-- Witness for claim C8: on a fresh headless engine after one
registration, the never-produced index 5 looks up to nothing. -/
theorem c8_lookup_signature_witness :
    NativeEngine.lookup_signature
      (registerAllSigs (NativeEngine.headless (fun _ => false))
        [⟨[WType.i32], [WType.i64]⟩]).2 5 = none :=
  c8_lookup_signature_spec.2 (NativeEngine.headless (fun _ => false)) rfl
    [⟨[WType.i32], [WType.i64]⟩] 5 (by decide)

/-- Claim C9: the loaded-library list is append-only: each engine operation
leaves the list unchanged or appends one entry at its end, and any sequence
of operations leaves the original list as an unchanged prefix, so no entry
is ever removed, replaced or reordered. -/
theorem c9_libraries_append_only :
    (∀ (op : EngineOp) (s : NativeEngineInner),
      (op.apply s).libraries = s.libraries ∨
        ∃ l : Library, (op.apply s).libraries = s.libraries ++ [l]) ∧
    (∀ (ops : List EngineOp) (s : NativeEngineInner),
      ∃ suffix : List Library,
        (applyAll ops s).libraries = s.libraries ++ suffix) := by
  have hstep : ∀ (op : EngineOp) (s : NativeEngineInner),
      (op.apply s).libraries = s.libraries ∨
        ∃ l : Library, (op.apply s).libraries = s.libraries ++ [l] := by
    intro op s
    cases op with
    | registerSig ft => exact Or.inl rfl
    | lookupSig i => exact Or.inl rfl
    | validateBytes d => exact Or.inl rfl
    | setDeterministicPrefixer p => exact Or.inl rfl
    | addLibrary l => exact Or.inr ⟨l, rfl⟩
  refine ⟨hstep, ?_⟩
  intro ops
  induction ops with
  | nil =>
    intro s
    exact ⟨[], by simp [applyAll]⟩
  | cons op ops ih =>
    intro s
    obtain ⟨suf, hsuf⟩ := ih (op.apply s)
    rcases hstep op s with h | ⟨l, h⟩
    · exact ⟨suf, by simp [applyAll, hsuf, h]⟩
    · exact ⟨[l] ++ suf, by simp [applyAll, hsuf, h, List.append_assoc]⟩

/-- Claim C10: headless construction always succeeds: it sets the Linker
variant to None and the cross-compiling flag to false, its result does not
depend on which executables are installed (it never probes the search
path), and even in an environment with no toolchain at all — where
full-Engine construction fails — it yields an engine state. -/
theorem c10_headless_construction :
    ∀ installed : String → Bool,
      (NativeEngine.headless installed).linker = Linker.None ∧
      (NativeEngine.headless installed).is_cross_compiling = false ∧
      NativeEngine.headless installed = NativeEngine.headless (fun _ => false) ∧
      NativeEngine.new trivialCompiler Features.default true (fun _ => false) = none ∧
      NativeEngine.new trivialCompiler Features.default false (fun _ => false) = none :=
  fun _ => ⟨rfl, rfl, rfl, rfl, rfl⟩

end WasmerSpec
